import Mathlib

/-!
# Verification of the bio1 merge engine (mergedata.py)

Shallow embedding of `src/code/2.1-download-and-merge/mergedata.py`:
FASTA parsing and header normalization, CSV identifier normalization,
mature-arm resolution, star resolution, derived lengths, column
projection, and the per-species control flow.
-/

namespace Bio1

/-- A FASTA-derived sequence map (Python `dict[str, str]`), modelled as an
association list with overwrite-on-insert semantics. -/
abbrev SequenceMap := List (String × String)

/-- `d.get(k)` on a Python dict. -/
def mget (m : SequenceMap) (k : String) : Option String :=
  (m.find? (fun p => p.1 == k)).map (fun p => p.2)

/-- `d[k] = v` on a Python dict: overwrite any existing binding. -/
def minsert (m : SequenceMap) (k v : String) : SequenceMap :=
  (k, v) :: m.filter (fun p => p.1 != k)

/-- Python truthiness of an optional string: `None` and `""` are falsy. -/
def truthy : Option String → Bool
  | none => false
  | some s => !(s == "")

/-- Python `str.endswith(suf)` over character lists. -/
def endsWithL (l suf : List Char) : Bool :=
  if l.length < suf.length then false
  else l.drop (l.length - suf.length) == suf

/-- Helper for Python `needle in hay` (substring containment). -/
def strContainsAux (needle : List Char) : List Char → Bool
  | [] => needle.isEmpty
  | c :: rest => needle.isPrefixOf (c :: rest) || strContainsAux needle rest

/-- Python `needle in hay` on strings. -/
def strContains (hay needle : String) : Bool :=
  strContainsAux needle.toList hay.toList

/-- Python `str.strip()` over character lists. -/
def trimChars (l : List Char) : List Char :=
  ((l.dropWhile Char.isWhitespace).reverse.dropWhile Char.isWhitespace).reverse

/-- `clean_csv_id` of mergedata.py over character lists: strip surrounding
whitespace, then drop a trailing `" V"` (two characters) if present. -/
def cleanIdChars (l : List Char) : List Char :=
  let s := trimChars l
  if endsWithL s [' ', 'V'] then s.take (s.length - 2) else s

/-- `clean_csv_id` of mergedata.py (line 38). -/
def clean_csv_id (raw : String) : String :=
  String.mk (cleanIdChars raw.toList)

/-- Fuel-driven worker for `removeVersionTags`; the fuel starts at the list
length, which always suffices because every step consumes at least one
character and one unit of fuel. -/
def removeVersionTagsAux : Nat → List Char → List Char
  | 0, l => l
  | _ + 1, [] => []
  | fuel + 1, c :: rest =>
    if (c == '-' || c == '_') && rest.head? == some 'v'
        && !(rest.tail.takeWhile Char.isDigit).isEmpty then
      removeVersionTagsAux fuel (rest.tail.dropWhile Char.isDigit)
    else
      c :: removeVersionTagsAux fuel rest

/-- `re.sub(r"[-_]v\d+", "", raw)` of mergedata.py line 48: remove every
occurrence of `-` or `_` followed by `v` and one or more digits, scanning
left to right with greedy digit consumption. -/
def removeVersionTags (l : List Char) : List Char :=
  removeVersionTagsAux l.length l

/-- Characters kept by `.replace(">", "").replace("*", "")`. -/
def notMarker (c : Char) : Bool :=
  !(c == '>') && !(c == '*')

/-- `clean_fasta_header` of mergedata.py (line 45) over character lists:
remove `>` and `*`, remove version tags, then classify a trailing
`_5p` / `_3p` / `_pre` suffix. -/
def cleanHeaderChars (l : List Char) : List Char × Option String :=
  let raw := l.filter notMarker
  let clean := removeVersionTags raw
  if endsWithL clean ['_', '5', 'p'] then (clean.take (clean.length - 3), some "5p")
  else if endsWithL clean ['_', '3', 'p'] then (clean.take (clean.length - 3), some "3p")
  else if endsWithL clean ['_', 'p', 'r', 'e'] then (clean.take (clean.length - 4), none)
  else (clean, none)

/-- `clean_fasta_header` of mergedata.py: strips the raw header and returns
the base identifier with an optional arm tag. -/
def clean_fasta_header (header : String) : String × Option String :=
  let r := cleanHeaderChars (trimChars header.toList)
  (String.mk r.1, r.2)

/-- Storage key built in `parse_fasta` line 78:
`f"{base_id}_{arm}" if arm else base_id`. -/
def fastaKey (line : String) : String :=
  let r := clean_fasta_header line
  match r.2 with
  | some a => r.1 ++ "_" ++ a
  | none => r.1

/-- The line loop of `parse_fasta` (mergedata.py lines 69-83). `key?` is
`current_key` (`none` = Python `None`); the flush condition `if current_key:`
is Python truthiness, so an empty-string key is never flushed. -/
def parseFastaLoop (lines : List String) (key? : Option String)
    (cur : List String) (seqs : SequenceMap) : SequenceMap :=
  match lines with
  | [] =>
    match key? with
    | some k => if k == "" then seqs else minsert seqs k (String.join cur)
    | none => seqs
  | l :: rest =>
    let line := String.mk (trimChars l.toList)
    if line == "" then
      parseFastaLoop rest key? cur seqs
    else if line.toList.head? == some '>' then
      let seqs' :=
        match key? with
        | some k => if k == "" then seqs else minsert seqs k (String.join cur)
        | none => seqs
      parseFastaLoop rest (some (fastaKey line)) [] seqs'
    else
      parseFastaLoop rest key? (cur ++ [line]) seqs

/-- `parse_fasta` of mergedata.py applied to the lines of an existing file. -/
def parse_fasta (lines : List String) : SequenceMap :=
  parseFastaLoop lines none [] []

/-- `seed = str(seed_seq).strip() if pd.notna(seed_seq) else ""`
(mergedata.py line 97); `none` models a NaN cell. -/
def seedOf : Option String → String
  | some s => String.mk (trimChars s.toList)
  | none => ""

/-- `resolve_mature` of mergedata.py (line 87). `seed_seq = none` models a
NaN seed cell (`pd.notna` false). -/
def resolve_mature (mir_id : String) (seed_seq : Option String)
    (fasta_dict : SequenceMap) : String × String :=
  let seq_5p := mget fasta_dict (mir_id ++ "_5p")
  let seq_3p := mget fasta_dict (mir_id ++ "_3p")
  if truthy seq_5p && !truthy seq_3p then (seq_5p.getD "", "5p")
  else if truthy seq_3p && !truthy seq_5p then (seq_3p.getD "", "3p")
  else if truthy seq_5p && truthy seq_3p then
    let seed := seedOf seed_seq
    let s5 := seq_5p.getD ""
    let s3 := seq_3p.getD ""
    if strContains s5 seed && !strContains s3 seed then (s5, "5p")
    else if strContains s3 seed && !strContains s5 seed then (s3, "3p")
    else (s5, "5p")
  else ("N/A", "N/A")

/-- `target_star = "3p" if m_loc == "5p" else "5p"` (mergedata.py line 158). -/
def target_star (m_loc : String) : String :=
  if m_loc == "5p" then "3p" else "5p"

/-- The star-resolution block of mergedata.py (lines 157-172): mature map at
the target-arm key, then star map at the target-arm key, then star map at
the mature-arm key, with `""` when everything misses. -/
def resolve_star (mir_id m_loc : String) (mat_dict star_dict : SequenceMap) : String :=
  let star_key := mir_id ++ "_" ++ target_star m_loc
  let s0 := mget mat_dict star_key
  let s1 := if truthy s0 then s0.getD "" else (mget star_dict star_key).getD ""
  if s1 == "" then
    match mget star_dict (mir_id ++ "_" ++ m_loc) with
    | some v => v
    | none => ""
  else s1

/-- One input table row: the raw identifier cell and the seed cell
(`none` models NaN; an absent Seed column arrives as `some ""` via
`row.get("Seed", "")`). -/
structure CsvRow where
  rawId : String
  seed : Option String
deriving DecidableEq

/-- One enriched record: the fields attached in steps 3-4 of the loop. -/
structure Record where
  pre : String
  mat : String
  star : String
  m_loc : String
  preLen : Nat
  matLen : Nat
  starLen : Nat
deriving DecidableEq

/-- The length lambda of mergedata.py lines 180-188:
`len(x) if x != "N/A" and x is not None else 0` on a string value. -/
def length_field (x : String) : Nat :=
  if x != "N/A" then x.length else 0

/-- The body of the per-row loop (mergedata.py lines 145-172) together with
the length derivation of lines 180-188, for one row. -/
def processRow (row : CsvRow) (pre_dict mat_dict star_dict : SequenceMap) : Record :=
  let mir_id := clean_csv_id row.rawId
  let pre := (mget pre_dict mir_id).getD "N/A"
  let m := resolve_mature mir_id row.seed mat_dict
  let star := resolve_star mir_id m.2 mat_dict star_dict
  { pre := pre, mat := m.1, star := star, m_loc := m.2,
    preLen := length_field pre, matLen := length_field m.1,
    starLen := length_field star }

/-- The whole record-assembly loop over the table rows, in table order. -/
def processSheet (rows : List CsvRow) (pre_dict mat_dict star_dict : SequenceMap) :
    List Record :=
  rows.map (fun r => processRow r pre_dict mat_dict star_dict)

/-- `FINAL_COLUMNS` of mergedata.py (line 19). -/
def FINAL_COLUMNS : List String :=
  ["MirGeneDB ID", "MiRBase ID", "Family", "Seed", "Chromosome", "Start",
   "End", "Strand", "Precursor sequence", "Mature sequence", "Star sequence",
   "Mature location", "Precursor length", "Mature length", "Star length"]

/-- The seven columns assigned in step 4 (mergedata.py lines 175-188). -/
def ADDED_COLUMNS : List String :=
  ["Precursor sequence", "Mature sequence", "Star sequence", "Mature location",
   "Precursor length", "Mature length", "Star length"]

/-- Columns of the working table after step 4: original columns plus any
assigned column not already present (pandas appends new columns). -/
def workingColumns (orig : List String) : List String :=
  orig ++ ADDED_COLUMNS.filter (fun c => !(orig.contains c))

/-- `available_cols = [c for c in FINAL_COLUMNS if c in df.columns]`
(mergedata.py line 191). -/
def availableCols (cols : List String) : List String :=
  FINAL_COLUMNS.filter (fun c => cols.contains c)

/-- `parse_fasta` at the file level (mergedata.py lines 61-63): a missing
file (`none`) yields an empty map and a warning flag; an existing file is
parsed with no warning. -/
def parse_fasta_file : Option (List String) → SequenceMap × Bool
  | none => ([], true)
  | some lines => (parse_fasta lines, false)

/-- A per-species CSV file, seen under both pandas header interpretations
(`header=1` tried first, `header=0` as fallback; mergedata.py lines 123-127). -/
structure CsvFile where
  colsH1 : List String
  colsH0 : List String
  rowsH1 : List CsvRow
  rowsH0 : List CsvRow

/-- `next((c for c in df.columns if "MirGeneDB ID" in str(c)), None)`. -/
def findIdCol (cols : List String) : Option String :=
  cols.find? (fun c => strContains c "MirGeneDB ID")

/-- Outcome of processing one species: skipped with a message, or a sheet. -/
inductive SpeciesResult where
  | skipped (msg : String)
  | sheet (records : List Record)
deriving DecidableEq

/-- The inputs one species iteration reads: the CSV (or `none` if the file
is missing) and the three FASTA files (each `none` if missing). -/
structure SpeciesInput where
  csv : Option CsvFile
  preFas : Option (List String)
  matFas : Option (List String)
  starFas : Option (List String)

/-- One iteration of the species loop (mergedata.py lines 112-195): skip on
missing CSV, try the `header=1` column set then `header=0` for the
identifier column, skip if absent in both, otherwise build the sheet from
the three (possibly missing) FASTA files. -/
def processSpecies (inp : SpeciesInput) : SpeciesResult :=
  match inp.csv with
  | none => .skipped "CSV not found"
  | some f =>
    let pre_dict := (parse_fasta_file inp.preFas).1
    let mat_dict := (parse_fasta_file inp.matFas).1
    let star_dict := (parse_fasta_file inp.starFas).1
    match findIdCol f.colsH1 with
    | some _ => .sheet (processSheet f.rowsH1 pre_dict mat_dict star_dict)
    | none =>
      match findIdCol f.colsH0 with
      | some _ => .sheet (processSheet f.rowsH0 pre_dict mat_dict star_dict)
      | none => .skipped "ID column missing"

/-- The whole run: every species in the fixed order, each processed
independently; a skip never aborts the remainder. -/
def runAll (inputs : List SpeciesInput) : List SpeciesResult :=
  inputs.map processSpecies

/-! ## Helper lemmas -/

theorem drop_append_len (l s : List Char) (i : Nat) :
    (l ++ s).drop (l.length + i) = s.drop i := by
  induction l with
  | nil => simp
  | cons c l ih => simp [Nat.succ_add, ih]

theorem endsWithL_append_ge (l s t : List Char) (h : t.length ≤ s.length) :
    endsWithL (l ++ s) t = (s.drop (s.length - t.length) == t) := by
  unfold endsWithL
  rw [List.length_append]
  have h1 : ¬ (l.length + s.length < t.length) := by omega
  rw [if_neg h1]
  have h2 : l.length + s.length - t.length = l.length + (s.length - t.length) := by omega
  rw [h2, drop_append_len]

theorem endsWithL_append_self (l s : List Char) : endsWithL (l ++ s) s = true := by
  rw [endsWithL_append_ge l s s (Nat.le_refl _)]
  simp

theorem take_len_sub (l s : List Char) (n : Nat) (h : s.length = n) :
    (l ++ s).take ((l ++ s).length - n) = l := by
  subst h
  rw [List.length_append, Nat.add_sub_cancel]
  exact List.take_left l s

theorem resolve_mature_5p_only (mir_id : String) (seed_seq : Option String)
    (M : SequenceMap)
    (h5 : truthy (mget M (mir_id ++ "_5p")) = true)
    (h3 : truthy (mget M (mir_id ++ "_3p")) = false) :
    resolve_mature mir_id seed_seq M = ((mget M (mir_id ++ "_5p")).getD "", "5p") := by
  unfold resolve_mature
  simp [h5, h3]

theorem resolve_mature_3p_only (mir_id : String) (seed_seq : Option String)
    (M : SequenceMap)
    (h5 : truthy (mget M (mir_id ++ "_5p")) = false)
    (h3 : truthy (mget M (mir_id ++ "_3p")) = true) :
    resolve_mature mir_id seed_seq M = ((mget M (mir_id ++ "_3p")).getD "", "3p") := by
  unfold resolve_mature
  simp [h5, h3]

theorem resolve_mature_neither (mir_id : String) (seed_seq : Option String)
    (M : SequenceMap)
    (h5 : truthy (mget M (mir_id ++ "_5p")) = false)
    (h3 : truthy (mget M (mir_id ++ "_3p")) = false) :
    resolve_mature mir_id seed_seq M = ("N/A", "N/A") := by
  unfold resolve_mature
  simp [h5, h3]

theorem resolve_mature_both (mir_id : String) (seed_seq : Option String)
    (M : SequenceMap)
    (h5 : truthy (mget M (mir_id ++ "_5p")) = true)
    (h3 : truthy (mget M (mir_id ++ "_3p")) = true) :
    resolve_mature mir_id seed_seq M =
      (let seed := seedOf seed_seq
       let s5 := (mget M (mir_id ++ "_5p")).getD ""
       let s3 := (mget M (mir_id ++ "_3p")).getD ""
       if strContains s5 seed && !strContains s3 seed then (s5, "5p")
       else if strContains s3 seed && !strContains s5 seed then (s3, "3p")
       else (s5, "5p")) := by
  unfold resolve_mature
  simp [h5, h3]

theorem getD_beq_empty_of_truthy (o : Option String) (h : truthy o = true) :
    (o.getD "" == "") = false := by
  cases o with
  | none => simp [truthy] at h
  | some s => simpa [truthy, Option.getD] using h

theorem getD_beq_empty_of_falsy (o : Option String) (h : truthy o = false) :
    (o.getD "" == "") = true := by
  cases o with
  | none => simp [Option.getD]
  | some s => simpa [truthy, Option.getD] using h

theorem resolve_star_mat_hit (mir_id m_loc : String)
    (mat_dict star_dict : SequenceMap)
    (h1 : truthy (mget mat_dict (mir_id ++ "_" ++ target_star m_loc)) = true) :
    resolve_star mir_id m_loc mat_dict star_dict =
      (mget mat_dict (mir_id ++ "_" ++ target_star m_loc)).getD "" := by
  unfold resolve_star
  simp [h1, getD_beq_empty_of_truthy _ h1]

theorem resolve_star_star_hit (mir_id m_loc : String)
    (mat_dict star_dict : SequenceMap)
    (h1 : truthy (mget mat_dict (mir_id ++ "_" ++ target_star m_loc)) = false)
    (h2 : truthy (mget star_dict (mir_id ++ "_" ++ target_star m_loc)) = true) :
    resolve_star mir_id m_loc mat_dict star_dict =
      (mget star_dict (mir_id ++ "_" ++ target_star m_loc)).getD "" := by
  unfold resolve_star
  simp [h1, getD_beq_empty_of_truthy _ h2]

theorem resolve_star_fallback (mir_id m_loc : String)
    (mat_dict star_dict : SequenceMap)
    (h1 : truthy (mget mat_dict (mir_id ++ "_" ++ target_star m_loc)) = false)
    (h2 : truthy (mget star_dict (mir_id ++ "_" ++ target_star m_loc)) = false) :
    resolve_star mir_id m_loc mat_dict star_dict =
      (mget star_dict (mir_id ++ "_" ++ m_loc)).getD "" := by
  unfold resolve_star
  simp only [h1, Bool.false_eq_true, if_false, getD_beq_empty_of_falsy _ h2, if_true]
  cases hm : mget star_dict (mir_id ++ "_" ++ m_loc) <;> simp [Option.getD]

/-! ## Claim theorems -/

/-- C1: mature-arm resolution is total and deterministic: for every
identifier, seed value (including absent) and mature map, the resolved arm
is exactly one of `5p`, `3p`, `"N/A"` with a matching sequence; exactly one
non-empty arm entry is chosen directly; with both present the
seed-containment test decides, defaulting to `5p` on ambiguity; with
neither present both components are the `"N/A"` sentinel. -/
theorem C1_resolve_mature_total_deterministic (mir_id : String)
    (seed_seq : Option String) (M : SequenceMap) :
    ((resolve_mature mir_id seed_seq M).2 = "5p" ∨
     (resolve_mature mir_id seed_seq M).2 = "3p" ∨
     (resolve_mature mir_id seed_seq M).2 = "N/A") ∧
    ((resolve_mature mir_id seed_seq M).2 = "5p" →
      (resolve_mature mir_id seed_seq M).1 = (mget M (mir_id ++ "_5p")).getD "") ∧
    ((resolve_mature mir_id seed_seq M).2 = "3p" →
      (resolve_mature mir_id seed_seq M).1 = (mget M (mir_id ++ "_3p")).getD "") ∧
    ((resolve_mature mir_id seed_seq M).2 = "N/A" →
      (resolve_mature mir_id seed_seq M).1 = "N/A") ∧
    (truthy (mget M (mir_id ++ "_5p")) = true →
     truthy (mget M (mir_id ++ "_3p")) = false →
      resolve_mature mir_id seed_seq M = ((mget M (mir_id ++ "_5p")).getD "", "5p")) ∧
    (truthy (mget M (mir_id ++ "_3p")) = true →
     truthy (mget M (mir_id ++ "_5p")) = false →
      resolve_mature mir_id seed_seq M = ((mget M (mir_id ++ "_3p")).getD "", "3p")) ∧
    (truthy (mget M (mir_id ++ "_5p")) = false →
     truthy (mget M (mir_id ++ "_3p")) = false →
      resolve_mature mir_id seed_seq M = ("N/A", "N/A")) ∧
    (truthy (mget M (mir_id ++ "_5p")) = true →
     truthy (mget M (mir_id ++ "_3p")) = true →
      (strContains ((mget M (mir_id ++ "_5p")).getD "") (seedOf seed_seq) = true →
       strContains ((mget M (mir_id ++ "_3p")).getD "") (seedOf seed_seq) = false →
        resolve_mature mir_id seed_seq M = ((mget M (mir_id ++ "_5p")).getD "", "5p")) ∧
      (strContains ((mget M (mir_id ++ "_3p")).getD "") (seedOf seed_seq) = true →
       strContains ((mget M (mir_id ++ "_5p")).getD "") (seedOf seed_seq) = false →
        resolve_mature mir_id seed_seq M = ((mget M (mir_id ++ "_3p")).getD "", "3p")) ∧
      (strContains ((mget M (mir_id ++ "_5p")).getD "") (seedOf seed_seq) =
         strContains ((mget M (mir_id ++ "_3p")).getD "") (seedOf seed_seq) →
        resolve_mature mir_id seed_seq M = ((mget M (mir_id ++ "_5p")).getD "", "5p"))) := by
  cases h5 : truthy (mget M (mir_id ++ "_5p")) <;>
    cases h3 : truthy (mget M (mir_id ++ "_3p"))
  · rw [resolve_mature_neither mir_id seed_seq M h5 h3]
    simp
  · rw [resolve_mature_3p_only mir_id seed_seq M h5 h3]
    simp
  · rw [resolve_mature_5p_only mir_id seed_seq M h5 h3]
    simp
  · rw [resolve_mature_both mir_id seed_seq M h5 h3]
    cases hc5 : strContains ((mget M (mir_id ++ "_5p")).getD "") (seedOf seed_seq) <;>
      cases hc3 : strContains ((mget M (mir_id ++ "_3p")).getD "") (seedOf seed_seq) <;>
      simp [hc5, hc3]

/-- C1 witness: with both arms present and the seed `"ACC"` contained only
in the `5p` sequence, resolution picks the `5p` arm and its sequence. -/
theorem C1_witness :
    resolve_mature "m1" (some "ACC") [("m1_5p", "AACCGG"), ("m1_3p", "TTGGCC")] =
      ("AACCGG", "5p") := by
  have h := C1_resolve_mature_total_deterministic "m1" (some "ACC")
    [("m1_5p", "AACCGG"), ("m1_3p", "TTGGCC")]
  exact (h.2.2.2.2.2.2.2 (by decide) (by decide)).1 (by decide) (by decide)

/-- C2 counterexample: when the resolved mature arm is the `"N/A"` sentinel,
the target arm computed by `target_star = "3p" if m_loc == "5p" else "5p"`
is `"5p"`, not `"3p"` as the claim states. -/
theorem C2_counterexample : ¬ (target_star "N/A" = "3p") := by
  decide

/-- C2 amended: for every record whose resolved mature arm is the `"N/A"`
sentinel (neither arm present in the mature map), the target arm used for
star resolution is computed as `5p` — the else-branch of the
`"3p" if m_loc == "5p" else "5p"` rule. -/
theorem C2_target_arm_of_na (mir_id : String) (seed_seq : Option String)
    (M : SequenceMap)
    (h5 : truthy (mget M (mir_id ++ "_5p")) = false)
    (h3 : truthy (mget M (mir_id ++ "_3p")) = false) :
    (resolve_mature mir_id seed_seq M).2 = "N/A" ∧
    target_star (resolve_mature mir_id seed_seq M).2 = "5p" := by
  rw [resolve_mature_neither mir_id seed_seq M h5 h3]
  constructor
  · rfl
  · decide

/-- C2 witness: a record with an empty mature map resolves to the `"N/A"`
arm and its star target arm is `5p`. -/
theorem C2_witness :
    (resolve_mature "m3" none []).2 = "N/A" ∧
    target_star (resolve_mature "m3" none []).2 = "5p" :=
  C2_target_arm_of_na "m3" none [] (by decide) (by decide)

/-- C3: star resolution performs three lookups in fixed priority order —
the mature map at the target-arm key, then the star map at the same
target-arm key, then the star map at the mature-arm key — taking the first
non-empty hit; when all three miss the star sequence is the empty string,
not the `"N/A"` sentinel. -/
theorem C3_star_priority (mir_id m_loc : String)
    (mat_dict star_dict : SequenceMap) :
    (truthy (mget mat_dict (mir_id ++ "_" ++ target_star m_loc)) = true →
      resolve_star mir_id m_loc mat_dict star_dict =
        (mget mat_dict (mir_id ++ "_" ++ target_star m_loc)).getD "") ∧
    (truthy (mget mat_dict (mir_id ++ "_" ++ target_star m_loc)) = false →
     truthy (mget star_dict (mir_id ++ "_" ++ target_star m_loc)) = true →
      resolve_star mir_id m_loc mat_dict star_dict =
        (mget star_dict (mir_id ++ "_" ++ target_star m_loc)).getD "") ∧
    (truthy (mget mat_dict (mir_id ++ "_" ++ target_star m_loc)) = false →
     truthy (mget star_dict (mir_id ++ "_" ++ target_star m_loc)) = false →
      resolve_star mir_id m_loc mat_dict star_dict =
        (mget star_dict (mir_id ++ "_" ++ m_loc)).getD "") ∧
    (truthy (mget mat_dict (mir_id ++ "_" ++ target_star m_loc)) = false →
     truthy (mget star_dict (mir_id ++ "_" ++ target_star m_loc)) = false →
     mget star_dict (mir_id ++ "_" ++ m_loc) = none →
      resolve_star mir_id m_loc mat_dict star_dict = "") := by
  refine ⟨?_, ?_, ?_, ?_⟩
  · intro h1
    exact resolve_star_mat_hit mir_id m_loc mat_dict star_dict h1
  · intro h1 h2
    exact resolve_star_star_hit mir_id m_loc mat_dict star_dict h1 h2
  · intro h1 h2
    exact resolve_star_fallback mir_id m_loc mat_dict star_dict h1 h2
  · intro h1 h2 h3
    rw [resolve_star_fallback mir_id m_loc mat_dict star_dict h1 h2, h3]
    rfl

/-- C3 witness: with the mature map holding the opposite arm, the first
lookup wins at a concrete input. -/
theorem C3_witness :
    resolve_star "m1" "5p" [("m1_5p", "AACCGG"), ("m1_3p", "TTGGCC")] [] =
      "TTGGCC" := by
  have h := C3_star_priority "m1" "5p" [("m1_5p", "AACCGG"), ("m1_3p", "TTGGCC")] []
  exact h.1 (by decide)

/-- C4 counterexample: `"mir1 VV"` does not end with the two-character
suffix `" V"`, so normalization leaves it unchanged; it does not normalize
to `"mir1 V"` as the claim states. -/
theorem C4_counterexample : ¬ (clean_csv_id "mir1 VV" = "mir1 V") := by
  decide

/-- C4 amended: identifier normalization converts the value to a string,
strips surrounding whitespace, and removes a trailing literal `" V"`
exactly once when present: any trimmed value of the form `l ++ " V"`
normalizes to `l` (even when `l` itself still ends in `" V"`), so
`"mir1 V"` → `"mir1"` and `"mir1 V V"` → `"mir1 V"`; but `"mir1 VV"` does
not end with `" V"` and is left unchanged. -/
theorem C4_strip_V_once (l : List Char)
    (h : trimChars (l ++ [' ', 'V']) = l ++ [' ', 'V']) :
    cleanIdChars (l ++ [' ', 'V']) = l ∧
    clean_csv_id "mir1 V" = "mir1" ∧
    clean_csv_id "mir1 VV" = "mir1 VV" ∧
    clean_csv_id "mir1 V V" = "mir1 V" := by
  refine ⟨?_, by decide, by decide, by decide⟩
  unfold cleanIdChars
  simp only [h, endsWithL_append_self, if_true]
  exact take_len_sub l [' ', 'V'] 2 rfl

/-- C4 witness: the general strip-once fact applied at `l = "mir1".toList`. -/
theorem C4_witness : cleanIdChars ("mir1".toList ++ [' ', 'V']) = "mir1".toList :=
  (C4_strip_V_once "mir1".toList (by decide)).1

/-- C5: FASTA header normalization strips `>` and `*`, removes version tags
matching `-`/`_` + `v` + digits, then classifies a trailing `_5p`/`_3p`/
`_pre` suffix: arm-tagged headers produce key `{base}_{arm}`, while `_pre`
and unsuffixed headers produce the bare base; `">mir1-v2_5p"` yields key
`"mir1_5p"`. -/
theorem C5_fasta_header_normalization :
    (fastaKey ">mir1-v2_5p" = "mir1_5p") ∧
    (clean_fasta_header ">mir1-v2_5p" = ("mir1", some "5p")) ∧
    (∀ raw b : List Char,
       removeVersionTags (raw.filter notMarker) = b ++ ['_', '5', 'p'] →
       cleanHeaderChars raw = (b, some "5p")) ∧
    (∀ raw b : List Char,
       removeVersionTags (raw.filter notMarker) = b ++ ['_', '3', 'p'] →
       cleanHeaderChars raw = (b, some "3p")) ∧
    (∀ raw b : List Char,
       removeVersionTags (raw.filter notMarker) = b ++ ['_', 'p', 'r', 'e'] →
       cleanHeaderChars raw = (b, none)) ∧
    (∀ raw b : List Char,
       removeVersionTags (raw.filter notMarker) = b →
       endsWithL b ['_', '5', 'p'] = false →
       endsWithL b ['_', '3', 'p'] = false →
       endsWithL b ['_', 'p', 'r', 'e'] = false →
       cleanHeaderChars raw = (b, none)) ∧
    (∀ line b a, clean_fasta_header line = (b, some a) →
       fastaKey line = b ++ "_" ++ a) ∧
    (∀ line b, clean_fasta_header line = (b, none) → fastaKey line = b) := by
  refine ⟨by decide, by decide, ?_, ?_, ?_, ?_, ?_, ?_⟩
  · intro raw b h
    unfold cleanHeaderChars
    simp only [h, endsWithL_append_self, if_true]
    rw [take_len_sub b ['_', '5', 'p'] 3 rfl]
  · intro raw b h
    have e1 : endsWithL (b ++ ['_', '3', 'p']) ['_', '5', 'p'] = false := by
      rw [endsWithL_append_ge b _ _ (by decide)]
      decide
    unfold cleanHeaderChars
    simp only [h, e1, Bool.false_eq_true, if_false, endsWithL_append_self, if_true]
    rw [take_len_sub b ['_', '3', 'p'] 3 rfl]
  · intro raw b h
    have e1 : endsWithL (b ++ ['_', 'p', 'r', 'e']) ['_', '5', 'p'] = false := by
      rw [endsWithL_append_ge b _ _ (by decide)]
      decide
    have e2 : endsWithL (b ++ ['_', 'p', 'r', 'e']) ['_', '3', 'p'] = false := by
      rw [endsWithL_append_ge b _ _ (by decide)]
      decide
    unfold cleanHeaderChars
    simp only [h, e1, e2, Bool.false_eq_true, if_false, endsWithL_append_self, if_true]
    rw [take_len_sub b ['_', 'p', 'r', 'e'] 4 rfl]
  · intro raw b h h5 h3 hp
    unfold cleanHeaderChars
    simp only [h, h5, h3, hp, Bool.false_eq_true, if_false]
  · intro line b a h
    unfold fastaKey
    rw [h]
  · intro line b h
    unfold fastaKey
    rw [h]

/-- C5 witness: the arm classification rule applied at a concrete header
with a version tag. -/
theorem C5_witness : cleanHeaderChars ">mirX-v7_5p".toList = ("mirX".toList, some "5p") :=
  C5_fasta_header_normalization.2.2.1 ">mirX-v7_5p".toList "mirX".toList (by decide)

/-- C6: each of the three derived length fields equals `length_field` of its
sequence field, which is the character count except at the `"N/A"` sentinel,
where it is 0; the empty string also yields 0. -/
theorem C6_length_fields (row : CsvRow) (p m s : SequenceMap) :
    ((processRow row p m s).preLen = length_field (processRow row p m s).pre) ∧
    ((processRow row p m s).matLen = length_field (processRow row p m s).mat) ∧
    ((processRow row p m s).starLen = length_field (processRow row p m s).star) ∧
    (∀ x : String, x ≠ "N/A" → length_field x = x.length) ∧
    (length_field "N/A" = 0) ∧
    (length_field "" = 0) := by
  refine ⟨rfl, rfl, rfl, ?_, by decide, by decide⟩
  intro x hx
  simp [length_field, hx]

/-- C6 witness: the length rule at a concrete non-sentinel string. -/
theorem C6_witness : length_field "AACC" = ("AACC" : String).length :=
  (C6_length_fields ⟨"x", none⟩ [] [] []).2.2.2.1 "AACC" (by decide)

theorem eq_some_getD_of_truthy (o : Option String) (h : truthy o = true) :
    o = some (o.getD "") := by
  cases o with
  | none => simp [truthy] at h
  | some s => rfl

theorem resolve_mature_cases (mir_id : String) (seed_seq : Option String)
    (M : SequenceMap) :
    ((resolve_mature mir_id seed_seq M).1 = "N/A" ∧
     (resolve_mature mir_id seed_seq M).2 = "N/A") ∨
    ((resolve_mature mir_id seed_seq M).2 = "5p" ∧
     mget M (mir_id ++ "_5p") = some (resolve_mature mir_id seed_seq M).1) ∨
    ((resolve_mature mir_id seed_seq M).2 = "3p" ∧
     mget M (mir_id ++ "_3p") = some (resolve_mature mir_id seed_seq M).1) := by
  cases h5 : truthy (mget M (mir_id ++ "_5p")) <;>
    cases h3 : truthy (mget M (mir_id ++ "_3p"))
  · rw [resolve_mature_neither mir_id seed_seq M h5 h3]
    exact Or.inl ⟨rfl, rfl⟩
  · rw [resolve_mature_3p_only mir_id seed_seq M h5 h3]
    exact Or.inr (Or.inr ⟨rfl, eq_some_getD_of_truthy _ h3⟩)
  · rw [resolve_mature_5p_only mir_id seed_seq M h5 h3]
    exact Or.inr (Or.inl ⟨rfl, eq_some_getD_of_truthy _ h5⟩)
  · rw [resolve_mature_both mir_id seed_seq M h5 h3]
    cases hc5 : strContains ((mget M (mir_id ++ "_5p")).getD "") (seedOf seed_seq) <;>
      cases hc3 : strContains ((mget M (mir_id ++ "_3p")).getD "") (seedOf seed_seq) <;>
      simp only [hc5, hc3, Bool.not_true, Bool.not_false, Bool.and_true,
        Bool.and_false, Bool.true_and, Bool.false_and, Bool.and_self,
        Bool.false_eq_true, if_false, if_true]
    · exact Or.inr (Or.inl ⟨trivial, eq_some_getD_of_truthy _ h5⟩)
    · exact Or.inr (Or.inr ⟨trivial, eq_some_getD_of_truthy _ h3⟩)
    · exact Or.inr (Or.inl ⟨trivial, eq_some_getD_of_truthy _ h5⟩)
    · exact Or.inr (Or.inl ⟨trivial, eq_some_getD_of_truthy _ h5⟩)

theorem resolve_star_cases (mir_id m_loc : String)
    (mat_dict star_dict : SequenceMap) :
    resolve_star mir_id m_loc mat_dict star_dict = "" ∨
    mget mat_dict (mir_id ++ "_" ++ target_star m_loc) =
      some (resolve_star mir_id m_loc mat_dict star_dict) ∨
    mget star_dict (mir_id ++ "_" ++ target_star m_loc) =
      some (resolve_star mir_id m_loc mat_dict star_dict) ∨
    mget star_dict (mir_id ++ "_" ++ m_loc) =
      some (resolve_star mir_id m_loc mat_dict star_dict) := by
  cases h0 : truthy (mget mat_dict (mir_id ++ "_" ++ target_star m_loc))
  · cases h1 : truthy (mget star_dict (mir_id ++ "_" ++ target_star m_loc))
    · rw [resolve_star_fallback mir_id m_loc mat_dict star_dict h0 h1]
      cases h2 : mget star_dict (mir_id ++ "_" ++ m_loc) with
      | none => exact Or.inl (by simp [h2])
      | some v => exact Or.inr (Or.inr (Or.inr (by simp [h2])))
    · rw [resolve_star_star_hit mir_id m_loc mat_dict star_dict h0 h1]
      exact Or.inr (Or.inr (Or.inl (eq_some_getD_of_truthy _ h1)))
  · rw [resolve_star_mat_hit mir_id m_loc mat_dict star_dict h0]
    exact Or.inr (Or.inl (eq_some_getD_of_truthy _ h0))

theorem processRow_pre (row : CsvRow) (p m s : SequenceMap) :
    (processRow row p m s).pre = (mget p (clean_csv_id row.rawId)).getD "N/A" := rfl

theorem processRow_mat (row : CsvRow) (p m s : SequenceMap) :
    (processRow row p m s).mat =
      (resolve_mature (clean_csv_id row.rawId) row.seed m).1 := rfl

theorem processRow_m_loc (row : CsvRow) (p m s : SequenceMap) :
    (processRow row p m s).m_loc =
      (resolve_mature (clean_csv_id row.rawId) row.seed m).2 := rfl

theorem processRow_star (row : CsvRow) (p m s : SequenceMap) :
    (processRow row p m s).star =
      resolve_star (clean_csv_id row.rawId)
        (resolve_mature (clean_csv_id row.rawId) row.seed m).2 m s := rfl

/-- C7: the assembled sheet has one record per input row, each produced by
the per-row assembly, and for every row all three sequence fields are
populated: the precursor is a precursor-map value or the `"N/A"` sentinel,
the mature sequence is a mature-map value under the resolved arm key or the
`"N/A"` sentinel, and the star sequence is a value of one of the three
consulted keys or the empty string — never unset. -/
theorem C7_fields_always_populated (rows : List CsvRow) (p m s : SequenceMap) :
    ((processSheet rows p m s).length = rows.length) ∧
    (∀ r ∈ processSheet rows p m s, ∃ row ∈ rows, r = processRow row p m s) ∧
    (∀ row : CsvRow,
      ((processRow row p m s).pre = "N/A" ∨
        mget p (clean_csv_id row.rawId) = some (processRow row p m s).pre) ∧
      (((processRow row p m s).mat = "N/A" ∧ (processRow row p m s).m_loc = "N/A") ∨
        ((processRow row p m s).m_loc = "5p" ∧
          mget m (clean_csv_id row.rawId ++ "_5p") = some (processRow row p m s).mat) ∨
        ((processRow row p m s).m_loc = "3p" ∧
          mget m (clean_csv_id row.rawId ++ "_3p") = some (processRow row p m s).mat)) ∧
      ((processRow row p m s).star = "" ∨
        mget m (clean_csv_id row.rawId ++ "_" ++
            target_star (processRow row p m s).m_loc) =
          some (processRow row p m s).star ∨
        mget s (clean_csv_id row.rawId ++ "_" ++
            target_star (processRow row p m s).m_loc) =
          some (processRow row p m s).star ∨
        mget s (clean_csv_id row.rawId ++ "_" ++ (processRow row p m s).m_loc) =
          some (processRow row p m s).star)) := by
  refine ⟨List.length_map _ _, ?_, ?_⟩
  · intro r hr
    rcases List.mem_map.mp hr with ⟨row, hrow, hEq⟩
    exact ⟨row, hrow, hEq.symm⟩
  · intro row
    refine ⟨?_, ?_, ?_⟩
    · rw [processRow_pre]
      cases hp : mget p (clean_csv_id row.rawId) with
      | none => exact Or.inl (by simp)
      | some v => exact Or.inr (by simp)
    · rw [processRow_mat, processRow_m_loc]
      exact resolve_mature_cases (clean_csv_id row.rawId) row.seed m
    · rw [processRow_star, processRow_m_loc]
      exact resolve_star_cases (clean_csv_id row.rawId)
        (resolve_mature (clean_csv_id row.rawId) row.seed m).2 m s

/-- C7 witness: a one-row sheet has exactly one record. -/
theorem C7_witness :
    (processSheet [⟨"m1", none⟩] [] [] []).length =
      ([⟨"m1", none⟩] : List CsvRow).length :=
  (C7_fields_always_populated [⟨"m1", none⟩] [] [] []).1

/-- C8: for a processed species, the sheet's records are the input rows in
order and count (a map over the rows), and the emitted columns are exactly
the members of the fixed fifteen-column list present in the working table,
in that fixed order. -/
theorem C8_projection_and_row_order (orig : List String) (rows : List CsvRow)
    (p m s : SequenceMap) :
    List.Sublist (availableCols (workingColumns orig)) FINAL_COLUMNS ∧
    (∀ c, c ∈ availableCols (workingColumns orig) ↔
      c ∈ FINAL_COLUMNS ∧ c ∈ workingColumns orig) ∧
    ((processSheet rows p m s).length = rows.length) ∧
    (∀ i : Nat, (processSheet rows p m s)[i]? =
      (rows[i]?).map (fun row => processRow row p m s)) := by
  refine ⟨List.filter_sublist _, ?_, List.length_map _ _, ?_⟩
  · intro c
    constructor
    · intro hc
      have h := List.mem_filter.mp hc
      exact ⟨h.1, by simpa using h.2⟩
    · intro h
      exact List.mem_filter.mpr ⟨h.1, by simpa using h.2⟩
  · intro i
    simp [processSheet]

/-- C8 witness: membership in the projected column list at a concrete
working table, and the row count of a concrete one-row sheet. -/
theorem C8_witness :
    "Star length" ∈ availableCols (workingColumns ["MirGeneDB ID", "Seed"]) ∧
    (processSheet [⟨"m1", some "AA"⟩] [] [] []).length = 1 :=
  ⟨((C8_projection_and_row_order ["MirGeneDB ID", "Seed"]
      [⟨"m1", some "AA"⟩] [] [] []).2.1 "Star length").mpr
      ⟨by decide, by decide⟩,
   (C8_projection_and_row_order ["MirGeneDB ID", "Seed"]
      [⟨"m1", some "AA"⟩] [] [] []).2.2.1⟩

/-- C9: missing input files are non-fatal: a missing FASTA file yields an
empty map plus a warning and processing continues; a missing CSV file, or
an identifier column absent under both header interpretations, skips only
that species with a message; every species in the run is processed
independently of the others' skips. -/
theorem C9_missing_inputs_nonfatal :
    (parse_fasta_file none = ([], true)) ∧
    (∀ lines, parse_fasta_file (some lines) = (parse_fasta lines, false)) ∧
    (∀ pre mat star, processSpecies ⟨none, pre, mat, star⟩ =
      SpeciesResult.skipped "CSV not found") ∧
    (∀ f pre mat star, findIdCol f.colsH1 = none → findIdCol f.colsH0 = none →
      processSpecies ⟨some f, pre, mat, star⟩ =
        SpeciesResult.skipped "ID column missing") ∧
    (∀ f pre mat star c, findIdCol f.colsH1 = some c →
      processSpecies ⟨some f, pre, mat, star⟩ =
        SpeciesResult.sheet (processSheet f.rowsH1 (parse_fasta_file pre).1
          (parse_fasta_file mat).1 (parse_fasta_file star).1)) ∧
    (∀ inputs : List SpeciesInput, (runAll inputs).length = inputs.length ∧
      ∀ i : Nat, (runAll inputs)[i]? = (inputs[i]?).map processSpecies) := by
  refine ⟨rfl, fun lines => rfl, fun pre mat star => rfl, ?_, ?_, ?_⟩
  · intro f pre mat star h1 h0
    unfold processSpecies
    simp [h1, h0]
  · intro f pre mat star c h1
    unfold processSpecies
    simp [h1]
  · intro inputs
    exact ⟨List.length_map _ _, fun i => by simp [runAll]⟩

/-- C9 witness: a CSV whose columns contain no identifier label under either
header interpretation is skipped with the reported message. -/
theorem C9_witness :
    processSpecies ⟨some ⟨["A"], ["B"], [], []⟩, none, none, none⟩ =
      SpeciesResult.skipped "ID column missing" :=
  C9_missing_inputs_nonfatal.2.2.2.1 ⟨["A"], ["B"], [], []⟩ none none none
    (by decide) (by decide)

theorem mk_toList (l : List Char) : (String.mk l).toList = l := rfl

theorem string_mk_ne_empty (l : List Char) (h : l ≠ []) : ¬ (String.mk l = "") := by
  intro he
  exact h (congrArg String.data he)

theorem parseFastaLoop_cons_blank (l : String) (rest : List String)
    (key? : Option String) (cur : List String) (seqs : SequenceMap)
    (h : String.mk (trimChars l.toList) = "") :
    parseFastaLoop (l :: rest) key? cur seqs = parseFastaLoop rest key? cur seqs := by
  simp only [parseFastaLoop, h]
  rfl

theorem parseFastaLoop_cons_seqline (l : String) (rest : List String)
    (key? : Option String) (cur : List String) (seqs : SequenceMap)
    (hne : ¬ String.mk (trimChars l.toList) = "")
    (hnh : ¬ (trimChars l.toList).head? = some '>') :
    parseFastaLoop (l :: rest) key? cur seqs =
      parseFastaLoop rest key? (cur ++ [String.mk (trimChars l.toList)]) seqs := by
  simp only [parseFastaLoop, beq_iff_eq, mk_toList]
  rw [if_neg hne, if_neg hnh]

theorem parseFastaLoop_cons_header_none (l : String) (rest : List String)
    (cur : List String) (seqs : SequenceMap)
    (hne : ¬ String.mk (trimChars l.toList) = "")
    (hh : (trimChars l.toList).head? = some '>') :
    parseFastaLoop (l :: rest) none cur seqs =
      parseFastaLoop rest (some (fastaKey (String.mk (trimChars l.toList)))) [] seqs := by
  simp only [parseFastaLoop, beq_iff_eq, mk_toList]
  rw [if_neg hne, if_pos hh]

theorem parseFastaLoop_cons_header_some (l : String) (rest : List String)
    (k : String) (cur : List String) (seqs : SequenceMap)
    (hne : ¬ String.mk (trimChars l.toList) = "")
    (hh : (trimChars l.toList).head? = some '>')
    (hk : ¬ k = "") :
    parseFastaLoop (l :: rest) (some k) cur seqs =
      parseFastaLoop rest (some (fastaKey (String.mk (trimChars l.toList)))) []
        (minsert seqs k (String.join cur)) := by
  simp only [parseFastaLoop, beq_iff_eq, mk_toList]
  rw [if_neg hne, if_pos hh, if_neg hk]

theorem parseFastaLoop_nil_some (k : String) (cur : List String)
    (seqs : SequenceMap) (hk : ¬ k = "") :
    parseFastaLoop [] (some k) cur seqs = minsert seqs k (String.join cur) := by
  simp only [parseFastaLoop, beq_iff_eq]
  rw [if_neg hk]

theorem mget_minsert_self (m : SequenceMap) (k v : String) :
    mget (minsert m k v) k = some v := by
  simp [mget, minsert, List.find?]

theorem find_filter_ne (m : SequenceMap) (k q : String) (h : ¬ q = k) :
    List.find? (fun p => p.1 == q) (m.filter (fun p => p.1 != k)) =
    List.find? (fun p => p.1 == q) m := by
  induction m with
  | nil => rfl
  | cons a m ih =>
    by_cases ha : a.1 = k
    · have h1 : (a.1 != k) = false := by simp [ha]
      have h2 : (a.1 == q) = false := by
        rw [ha]
        exact beq_eq_false_iff_ne.mpr (fun he => h he.symm)
      simp only [List.filter_cons, h1, Bool.false_eq_true, if_false,
        List.find?_cons, h2, ih]
    · have h1 : (a.1 != k) = true := by simp [ha]
      simp only [List.filter_cons, h1, if_true, List.find?_cons, ih]

theorem mget_minsert_other (m : SequenceMap) (k q v : String) (h : ¬ q = k) :
    mget (minsert m k v) q = mget m q := by
  have hb : (k == q) = false := beq_eq_false_iff_ne.mpr (fun he => h he.symm)
  simp only [mget, minsert, List.find?_cons, hb, Bool.false_eq_true, if_false,
    find_filter_ne m k q h]

theorem parseFastaLoop_none_cur (lines : List String) (cur cur' : List String)
    (seqs : SequenceMap) :
    parseFastaLoop lines none cur seqs = parseFastaLoop lines none cur' seqs := by
  induction lines generalizing cur cur' with
  | nil => rfl
  | cons l rest ih =>
    by_cases h1 : String.mk (trimChars l.toList) = ""
    · rw [parseFastaLoop_cons_blank l rest none cur seqs h1,
        parseFastaLoop_cons_blank l rest none cur' seqs h1]
      exact ih cur cur'
    · by_cases h2 : (trimChars l.toList).head? = some '>'
      · rw [parseFastaLoop_cons_header_none l rest cur seqs h1 h2,
          parseFastaLoop_cons_header_none l rest cur' seqs h1 h2]
      · rw [parseFastaLoop_cons_seqline l rest none cur seqs h1 h2,
          parseFastaLoop_cons_seqline l rest none cur' seqs h1 h2]
        exact ih _ _

theorem parse_fasta_skips_leading (junk rest : List String)
    (h : ∀ l ∈ junk, ¬ (trimChars l.toList).head? = some '>') :
    parse_fasta (junk ++ rest) = parse_fasta rest := by
  induction junk with
  | nil => rfl
  | cons l junk' ih =>
    have hl := h l (List.mem_cons_self l junk')
    have hrest : ∀ l' ∈ junk', ¬ (trimChars l'.toList).head? = some '>' :=
      fun l' hl' => h l' (List.mem_cons_of_mem l hl')
    have hstep := ih hrest
    unfold parse_fasta at hstep ⊢
    rw [List.cons_append]
    by_cases h1 : String.mk (trimChars l.toList) = ""
    · rw [parseFastaLoop_cons_blank l (junk' ++ rest) none [] [] h1]
      exact hstep
    · rw [parseFastaLoop_cons_seqline l (junk' ++ rest) none [] [] h1 hl,
        parseFastaLoop_none_cur (junk' ++ rest) ([] ++ [String.mk (trimChars l.toList)]) []]
      exact hstep

theorem head_gt_of_trim (hdr : String) (hh : (trimChars hdr.toList).head? = some '>') :
    ¬ String.mk (trimChars hdr.toList) = "" := by
  apply string_mk_ne_empty
  intro he
  rw [he] at hh
  exact Option.noConfusion hh

theorem parse_fasta_single_header (hdr : String)
    (hh : (trimChars hdr.toList).head? = some '>')
    (hk : ¬ (fastaKey (String.mk (trimChars hdr.toList)) = "")) :
    parse_fasta [hdr] = [(fastaKey (String.mk (trimChars hdr.toList)), "")] := by
  unfold parse_fasta
  rw [parseFastaLoop_cons_header_none hdr [] [] [] (head_gt_of_trim hdr hh) hh,
    parseFastaLoop_nil_some _ [] [] hk]
  rfl

/-- C10 counterexample: the degenerate header `">"` normalizes to an empty
key, which is falsy in Python, so the pending-entry flush is skipped and no
empty-string entry is produced at end of input — refuting the claim that
every header followed by end of input produces an entry. -/
theorem C10_counterexample :
    (trimChars ">".toList).head? = some '>' ∧
    ¬ (mget (parse_fasta [">"]) (fastaKey ">") = some "") := by
  constructor
  · decide
  · decide

/-- C10 amended: sequence lines before the first header are silently
discarded, and a header immediately followed by another header or by end of
input produces an entry with empty value, provided the header's normalized
storage key is non-empty; a header whose normalized key is empty (such as
`">"`) is falsy under the flush test and produces no entry. The parser is a
total function over any list of input lines. -/
theorem C10_fasta_parser_edges :
    (∀ junk rest : List String,
       (∀ l ∈ junk, ¬ (trimChars l.toList).head? = some '>') →
       parse_fasta (junk ++ rest) = parse_fasta rest) ∧
    (∀ hdr : String, (trimChars hdr.toList).head? = some '>' →
       ¬ (fastaKey (String.mk (trimChars hdr.toList)) = "") →
       parse_fasta [hdr] = [(fastaKey (String.mk (trimChars hdr.toList)), "")]) ∧
    (∀ h1 h2 : String,
       (trimChars h1.toList).head? = some '>' →
       (trimChars h2.toList).head? = some '>' →
       ¬ (fastaKey (String.mk (trimChars h1.toList)) = "") →
       ¬ (fastaKey (String.mk (trimChars h2.toList)) = "") →
       mget (parse_fasta [h1, h2])
         (fastaKey (String.mk (trimChars h1.toList))) = some "") := by
  refine ⟨parse_fasta_skips_leading, parse_fasta_single_header, ?_⟩
  intro h1 h2 hh1 hh2 hk1 hk2
  unfold parse_fasta
  rw [parseFastaLoop_cons_header_none h1 [h2] [] [] (head_gt_of_trim h1 hh1) hh1,
    parseFastaLoop_cons_header_some h2 [] _ [] [] (head_gt_of_trim h2 hh2) hh2 hk1,
    parseFastaLoop_nil_some _ [] _ hk2]
  by_cases heq : fastaKey (String.mk (trimChars h1.toList)) =
      fastaKey (String.mk (trimChars h2.toList))
  · rw [heq, mget_minsert_self]
    rfl
  · rw [mget_minsert_other _ _ _ _ heq, mget_minsert_self]
    rfl

/-- C10 witness: a well-formed header followed by end of input yields one
entry with an empty sequence. -/
theorem C10_witness : parse_fasta [">h1"] = [("h1", "")] :=
  C10_fasta_parser_edges.2.1 ">h1" (by decide) (by decide)

end Bio1
